import Mathlib

/-!
Shallow embedding of the google-maps-mcp-server orchestration layer
(src/google-maps.js and src/index.js).  JavaScript numbers are modelled
as rationals, thrown exceptions as `Except String`, and the external
directions client together with the wall clock as an explicit
environment record.
-/

namespace GoogleMapsMcp

/-- JS truthiness of an optional string: `undefined` and `""` are falsy. -/
def jsTruthyStr : Option String → Bool
  | none => false
  | some s => !(s == "")

/-- JS `v || d` for an optional string value: `undefined` and `""` fall back. -/
def jsOrStr (v : Option String) (d : String) : String :=
  match v with
  | none => d
  | some s => if s == "" then d else s

/-- JS `v || d` for an optional numeric value: `undefined` and `0` fall back. -/
def jsOrNum (v : Option ℚ) (d : ℚ) : ℚ :=
  match v with
  | none => d
  | some x => if x == 0 then d else x

/-- JS `Math.round`: round half up, i.e. `⌊x + 1/2⌋`. -/
def jsRound (x : ℚ) : ℤ := ⌊x + 1/2⌋

/-- `Math.round(x * 100) / 100`: round to two decimal places. -/
def round2 (x : ℚ) : ℚ := (jsRound (x * 100) : ℚ) / 100

/-- Does `pat` occur at the head of `l`? Auxiliary for substring search. -/
def leadMatch : List Char → List Char → Bool
  | [], _ => true
  | _ :: _, [] => false
  | a :: as, b :: bs => a == b && leadMatch as bs

/-- Does `pat` occur anywhere in `l`? Auxiliary for JS `String.includes`. -/
def hasSub (pat : List Char) : List Char → Bool
  | [] => leadMatch pat []
  | c :: rest => leadMatch pat (c :: rest) || hasSub pat rest

/-- JS `hay.includes(needle)`. -/
def strIncludes (hay needle : String) : Bool := hasSub needle.data hay.data

/-- Is an `Except` value a success? Models a promise that resolved. -/
def exceptOk {ε α : Type} : Except ε α → Bool
  | .ok _ => true
  | .error _ => false

/-- JS `Promise.all`: succeeds with the list of results when every entry
succeeds, otherwise fails with (the first) failure. -/
def promiseAll {ε α : Type} : List (Except ε α) → Except ε (List α)
  | [] => .ok []
  | x :: xs =>
    match x with
    | .error e => .error e
    | .ok v =>
      match promiseAll xs with
      | .error e => .error e
      | .ok vs => .ok (v :: vs)

/- ## Raw provider response shapes (Google Directions API) -/

/-- One step of a raw provider leg. -/
structure RawStep where
  htmlInstructions : String
  distanceText : String
  durationText : String
  maneuver : Option String
  deriving DecidableEq, Repr

/-- One leg of a raw provider route: `distance.value` (meters),
`duration.value` (seconds), optional `duration_in_traffic.value`. -/
structure RawLeg where
  distanceValue : ℚ
  durationValue : ℚ
  durationInTrafficValue : Option ℚ
  steps : List RawStep
  deriving DecidableEq, Repr

/-- A raw provider route.  `warnings` may be absent (`undefined`). -/
structure RawRoute where
  summary : String
  legs : List RawLeg
  overviewPolyline : String
  warnings : Option (List String)
  bounds : String
  copyrights : String
  deriving DecidableEq, Repr

/- ## Normalized route representation -/

/-- Toll information derived from route warnings (`extractTollInfo`). -/
structure TollInfo where
  hasTolls : Bool
  warnings : List String
  estimatedCost : Option ℚ
  deriving DecidableEq, Repr

/-- A normalized step with HTML stripped from the instruction. -/
structure Step where
  instruction : String
  distance : String
  duration : String
  maneuver : Option String
  deriving DecidableEq, Repr

/-- The normalized route produced by `formatRouteResponse`. -/
structure NormalizedRoute where
  summary : String
  distance : ℚ
  duration : ℚ
  durationInTraffic : ℚ
  polyline : String
  steps : List Step
  warnings : List String
  tollInfo : Option TollInfo
  bounds : String
  copyrights : String
  deriving DecidableEq, Repr

/-- Strip HTML tags, the JS regex replace of `<[^>]*>` by the empty
string: at a `<`, drop up to and including the next `>` when one exists;
a `<` with no later `>` matches nothing and is kept. -/
def stripTags : List Char → List Char
  | [] => []
  | c :: rest =>
    if c = '<' then
      match h : rest.dropWhile (· ≠ '>') with
      | [] => c :: stripTags rest
      | _ :: after => stripTags after
    else c :: stripTags rest
termination_by l => l.length
decreasing_by
  all_goals simp_wf
  have h1 : (rest.dropWhile (· ≠ '>')).length ≤ rest.length := by
    simpa using (List.dropWhile_sublist (l := rest) (p := (· ≠ '>'))).length_le
  rw [h] at h1
  simp at h1
  omega

/-- HTML stripping on strings: `replace(/<[^>]*>/g, '')`. -/
def stripHtml (s : String) : String := ⟨stripTags s.data⟩

/-- Scan the raw route's warnings case-insensitively for "toll"
(`extractTollInfo`); `estimatedCost` is always left `null`. -/
def extractTollInfo (route : RawRoute) : TollInfo :=
  let tollWarnings := (route.warnings.getD []).filter
    (fun warning => strIncludes warning.toLower "toll")
  { hasTolls := tollWarnings.length > 0
    warnings := tollWarnings
    estimatedCost := none }

/-- Body of `formatRouteResponse` once the first leg is in hand. -/
def formatLeg (route : RawRoute) (leg : RawLeg) : NormalizedRoute :=
  { summary := route.summary
    distance := leg.distanceValue
    duration := leg.durationValue
    durationInTraffic :=
      match leg.durationInTrafficValue with
      | some v => v
      | none => leg.durationValue
    polyline := route.overviewPolyline
    steps := leg.steps.map (fun step =>
      { instruction := stripHtml step.htmlInstructions
        distance := step.distanceText
        duration := step.durationText
        maneuver := step.maneuver })
    warnings := route.warnings.getD []
    tollInfo := some (extractTollInfo route)
    bounds := route.bounds
    copyrights := route.copyrights }

/-- `formatRouteResponse`: reads `route.legs[0]`; `none` models the JS
`TypeError` raised when the legs array is empty. -/
def formatRouteResponse (route : RawRoute) : Option NormalizedRoute :=
  route.legs.head?.map (formatLeg route)

/- ## Provider environment and queries -/

/-- Option bag destructured into `...options` by the service's
`calculateRoute` (avoid flags, departure time, traffic model). -/
structure RouteOptions where
  avoidTolls : Option Bool := none
  avoidHighways : Option Bool := none
  avoidFerries : Option Bool := none
  departureTime : Option String := none
  trafficModel : Option String := none
  deriving DecidableEq, Repr

/-- The parameters of a directions request as sent to the external
client.  `departureTag` stands for the `departure_time` field: either
the literal `"now"`, a parsed date (`"date:<iso>"`), or a wall-clock
offset (`"offset:<seconds>"`) for the alternative-time samples, whose
concrete `Date` value depends on the clock. -/
structure DirectionsQuery where
  origin : Option String
  destination : Option String
  waypoints : Option String
  departureTag : String
  trafficModel : String
  avoid : Option String
  alternatives : Option Bool
  deriving DecidableEq, Repr

/-- The external world: the directions client as a deterministic oracle
from query to response (a list of raw routes, or a thrown message), and
the wall clock used for `new Date().toISOString()` timestamps. -/
structure Env where
  directions : DirectionsQuery → Except String (List RawRoute)
  now : String

/-- Parameters of `GoogleMapsService.calculateRoute` after the JS
destructuring `{origin, destination, waypoints = [], alternatives =
false, ...options}`. -/
structure CalcParams where
  origin : Option String := none
  destination : Option String := none
  waypoints : List String := []
  alternatives : Bool := false
  options : RouteOptions := {}
  deriving DecidableEq, Repr

/-- `buildAvoidString`: fold the avoid flags into a pipe-joined token
list, absent when empty. -/
def buildAvoidString (options : RouteOptions) : Option String :=
  let avoid :=
    (if options.avoidTolls.getD false then ["tolls"] else []) ++
    (if options.avoidHighways.getD false then ["highways"] else []) ++
    (if options.avoidFerries.getD false then ["ferries"] else [])
  if avoid.length > 0 then some (String.intercalate "|" avoid) else none

/-- The directions query built by the service's `calculateRoute`. -/
def calcQuery (p : CalcParams) : DirectionsQuery :=
  { origin := p.origin
    destination := p.destination
    waypoints :=
      if p.waypoints.length > 0 then some (String.intercalate "|" p.waypoints) else none
    departureTag :=
      if jsTruthyStr p.options.departureTime then
        "date:" ++ p.options.departureTime.getD ""
      else "now"
    trafficModel := jsOrStr p.options.trafficModel "best_guess"
    avoid := buildAvoidString p.options
    alternatives := some p.alternatives }

/-- Message of the JS `TypeError` raised when an expected array element
is missing (e.g. reading `.legs` of `routes[0]` on an empty array);
inside the service's try blocks it is caught like any other failure. -/
def typeErrorMessage : String := "Cannot read properties of undefined"

/-- `GoogleMapsService.calculateRoute`: issue the query, take
`routes[0]`, throw `'No route found'` when absent, and normalize.
Every throw inside the try — including the no-route throw — is caught
by the same catch and re-thrown as `` `Google Maps API error: ...` ``. -/
def svcCalculateRoute (env : Env) (p : CalcParams) : Except String NormalizedRoute :=
  match env.directions (calcQuery p) with
  | .error e => .error ("Google Maps API error: " ++ e)
  | .ok routes =>
    match routes.head? with
    | none => .error ("Google Maps API error: " ++ "No route found")
    | some route =>
      match formatRouteResponse route with
      | none => .error ("Google Maps API error: " ++ typeErrorMessage)
      | some n => .ok n

/-- The primary directions query of `getTrafficInfo`
(`departure_time: departureTime === 'now' ? 'now' : new Date(...)`). -/
def trafficQuery (origin destination : Option String) (departureTime : String) :
    DirectionsQuery :=
  { origin := origin
    destination := destination
    waypoints := none
    departureTag := if departureTime == "now" then "now" else "date:" ++ departureTime
    trafficModel := "best_guess"
    avoid := none
    alternatives := none }

/-- The supplementary query of `getAlternativeTimes` for one offset
(departure time `Date.now() + offset * 1000`). -/
def altQuery (origin destination : Option String) (offset : ℕ) : DirectionsQuery :=
  { origin := origin
    destination := destination
    waypoints := none
    departureTag := "offset:" ++ toString offset
    trafficModel := "best_guess"
    avoid := none
    alternatives := none }

/-- The fixed sampling offsets of `getAlternativeTimes` (seconds). -/
def timeOffsets : List ℕ := [1800, 3600, 7200]

/-- Result key for one offset: `` `+${offset/60}min` ``. -/
def altKey (offset : ℕ) : String := "+" ++ toString (offset / 60) ++ "min"

/-- `routes[0].legs[0].duration_in_traffic?.value ||
routes[0].legs[0].duration.value`.  `none` models the `TypeError` on an
empty routes or legs array, caught by the per-offset try; a present
traffic duration of `0` is falsy and falls back to `duration.value`. -/
def altDuration (routes : List RawRoute) : Option ℚ :=
  match routes.head? with
  | none => none
  | some r =>
    match r.legs.head? with
    | none => none
    | some leg =>
      some (match leg.durationInTrafficValue with
        | some v => if v == 0 then leg.durationValue else v
        | none => leg.durationValue)

/-- `getAlternativeTimes`: sample the three offsets; each failing sample
is caught, logged as a warning, and omitted from the result. -/
def getAlternativeTimes (env : Env) (origin destination : Option String) :
    List (String × ℚ) :=
  timeOffsets.filterMap (fun offset =>
    match env.directions (altQuery origin destination offset) with
    | .error _ => none
    | .ok routes =>
      match altDuration routes with
      | none => none
      | some d => some (altKey offset, d))

/-- The value returned by `getTrafficInfo`. -/
structure TrafficSnapshot where
  duration : ℚ
  durationInTraffic : ℚ
  route : NormalizedRoute
  alternativeTimes : List (String × ℚ)
  deriving DecidableEq, Repr

/-- `GoogleMapsService.getTrafficInfo`: primary query plus best-effort
alternative-time samples; only a primary-path failure (including the
`TypeError` on an empty routes or legs array) reaches the catch and is
re-thrown as `` `Traffic info error: ...` ``. -/
def getTrafficInfo (env : Env) (origin destination : Option String)
    (departureTime : String) : Except String TrafficSnapshot :=
  match env.directions (trafficQuery origin destination departureTime) with
  | .error e => .error ("Traffic info error: " ++ e)
  | .ok routes =>
    match routes.head? with
    | none => .error ("Traffic info error: " ++ typeErrorMessage)
    | some route =>
      match route.legs.head? with
      | none => .error ("Traffic info error: " ++ typeErrorMessage)
      | some leg =>
        .ok { duration := leg.durationValue
              durationInTraffic :=
                match leg.durationInTrafficValue with
                | some v => v
                | none => leg.durationValue
              route := formatLeg route leg
              alternativeTimes := getAlternativeTimes env origin destination }

/- ## Cost estimator and traffic classifier -/

/-- The `costs` section of the configuration file. -/
structure CostsConfig where
  fuelPricePerLiter : ℚ
  vehicleFuelEfficiency : ℚ
  tollEstimatePerKm : ℚ
  deriving DecidableEq, Repr

/-- Caller-supplied vehicle parameters for `estimate_costs`. -/
structure VehicleOptions where
  fuelEfficiency : Option ℚ := none
  fuelPrice : Option ℚ := none
  deriving DecidableEq, Repr

/-- Stand-in for JS number-to-string conversion in template literals; no
claim depends on its exact output. -/
def numToString (x : ℚ) : String := toString x

/-- JS `x.toFixed(1)` on a non-negative rational: one decimal digit,
rounding half up (float artifacts of the source ignored). -/
def toFixed1 (x : ℚ) : String :=
  let n : ℤ := ⌊x * 10 + 1/2⌋
  if n ≥ 0 then toString (n / 10) ++ "." ++ toString (n % 10)
  else "-" ++ toString ((-n) / 10) ++ "." ++ toString ((-n) % 10)

/-- The `breakdown` field of a cost estimate. -/
structure Breakdown where
  distance : String
  fuelNeeded : String
  fuelEfficiency : String
  fuelPrice : String
  deriving DecidableEq, Repr

/-- The `assumptions` field of a cost estimate. -/
structure Assumptions where
  fuelEfficiency : String
  fuelPrice : String
  tollEstimate : String
  deriving DecidableEq, Repr

/-- The value returned by `calculateTripCosts`. -/
structure CostEstimate where
  fuelCost : ℚ
  tollCost : ℚ
  totalCost : ℚ
  breakdown : Breakdown
  assumptions : Assumptions
  deriving DecidableEq, Repr

/-- `calculateTripCosts`: fuel cost from distance, efficiency and price;
toll cost from `route.tollInfo ? route.tollInfo.estimatedCost :
distanceKm * config.costs.tollEstimatePerKm`.  When `tollInfo` is
present with `estimatedCost: null`, the `null` behaves as `0` in
`Math.round(tollCost * 100)` and in `fuelCost + tollCost`. -/
def calculateTripCosts (cfg : CostsConfig) (route : NormalizedRoute)
    (vehicleOptions : VehicleOptions) : CostEstimate :=
  let fuelEfficiency := jsOrNum vehicleOptions.fuelEfficiency cfg.vehicleFuelEfficiency
  let fuelPrice := jsOrNum vehicleOptions.fuelPrice cfg.fuelPricePerLiter
  let distanceKm := route.distance / 1000
  let fuelNeeded := (distanceKm / 100) * fuelEfficiency
  let fuelCost := fuelNeeded * fuelPrice
  let tollCost :=
    match route.tollInfo with
    | some ti => ti.estimatedCost.getD 0
    | none => distanceKm * cfg.tollEstimatePerKm
  { fuelCost := round2 fuelCost
    tollCost := round2 tollCost
    totalCost := round2 (fuelCost + tollCost)
    breakdown :=
      { distance := toFixed1 distanceKm ++ " km"
        fuelNeeded := toFixed1 fuelNeeded ++ " L"
        fuelEfficiency := numToString fuelEfficiency ++ " L/100km"
        fuelPrice := numToString fuelPrice ++ "/L" }
    assumptions :=
      { fuelEfficiency := numToString fuelEfficiency ++ " L/100km"
        fuelPrice := numToString fuelPrice ++ " per liter"
        tollEstimate := "Based on route analysis" } }

/-- `getTrafficCondition`, applied to `trafficData.duration` and
`trafficData.durationInTraffic`. -/
def getTrafficCondition (duration durationInTraffic : ℚ) : String :=
  let delay := durationInTraffic - duration
  let delayRatio := delay / duration
  if delayRatio < 1/10 then "light"
  else if delayRatio < 3/10 then "moderate"
  else if delayRatio < 1/2 then "heavy"
  else "severe"

/-- Severity rank of a condition label, for stating monotonicity. -/
def severityRank (s : String) : ℕ :=
  if s == "light" then 0
  else if s == "moderate" then 1
  else if s == "heavy" then 2
  else 3

/- ## Tool dispatcher -/

/-- Caller-supplied arguments of a tool call (any field may be absent). -/
structure Args where
  origin : Option String := none
  destination : Option String := none
  waypoints : Option (List String) := none
  options : Option RouteOptions := none
  alternatives : Option Bool := none
  compareOptions : Option (List RouteOptions) := none
  departureTime : Option String := none
  route : Option NormalizedRoute := none
  vehicleOptions : Option VehicleOptions := none
  deriving DecidableEq

/-- One item of a protocol result's `content` array. -/
structure ContentItem where
  type : String
  text : String
  deriving DecidableEq, Repr

/-- The protocol-level result of a tool call.  Successful handler
results carry no `isError` field in the source, which reads as falsy;
modelled as `isError := false`. -/
structure ToolResult where
  content : List ContentItem
  isError : Bool
  deriving DecidableEq, Repr

/-- Wrap a serialized payload as a successful text result. -/
def mkTextResult (s : String) : ToolResult :=
  { content := [{ type := "text", text := s }], isError := false }

/-- The `route` payload of a `calculate_route` result. -/
structure RoutePayload where
  summary : String
  distance : ℚ
  duration : ℚ
  durationInTraffic : ℚ
  polyline : String
  steps : List Step
  warnings : List String
  tollInfo : Option TollInfo
  deriving DecidableEq, Repr

/-- The result object assembled by `handleCalculateRoute`. -/
structure CalculateResult where
  success : Bool
  route : RoutePayload
  timestamp : String
  trafficModel : String
  deriving DecidableEq, Repr

/-- `handleCalculateRoute` before JSON serialization. -/
def handleCalculateRouteCore (env : Env) (args : Args) :
    Except String CalculateResult :=
  let options := args.options.getD {}
  (svcCalculateRoute env
      { origin := args.origin
        destination := args.destination
        waypoints := args.waypoints.getD []
        alternatives := false
        options := options }).map (fun route =>
    { success := true
      route :=
        { summary := route.summary
          distance := route.distance
          duration := route.duration
          durationInTraffic := route.durationInTraffic
          polyline := route.polyline
          steps := route.steps
          warnings := route.warnings
          tollInfo := route.tollInfo }
      timestamp := env.now
      trafficModel := jsOrStr options.trafficModel "best_guess" })

/-- The `options` field of a comparison entry: the literal string
`'default'` for entry 0, otherwise `compareOptions[index - 1]` (an
out-of-range JS index reading as `undefined`). -/
inductive OptLabel where
  | defaultLabel
  | given (o : Option RouteOptions)
  deriving DecidableEq, Repr

/-- One entry of `comparison.routes`. -/
structure CompareEntry where
  id : ℕ
  summary : String
  distance : ℚ
  duration : ℚ
  durationInTraffic : ℚ
  tollInfo : Option TollInfo
  options : OptLabel
  deriving DecidableEq, Repr

/-- `findBestRoute`: `routes.reduce` keeping the entry with strictly
smaller `durationInTraffic`, i.e. a left fold over the tail seeded with
the head; ties keep the earlier entry. -/
structure Recommendation where
  recommended : NormalizedRoute
  reason : String
  deriving DecidableEq, Repr

/-- `findBestRoute` on the non-empty route list `r :: rs`. -/
def findBestRoute (r : NormalizedRoute) (rs : List NormalizedRoute) :
    Recommendation :=
  { recommended := rs.foldl
      (fun best current =>
        if current.durationInTraffic < best.durationInTraffic then current else best) r
    reason := "Fastest travel time with current traffic conditions" }

/-- The `comparison.summary` object. -/
structure ComparisonSummary where
  fastestRoute : NormalizedRoute
  shortestRoute : NormalizedRoute
  deriving DecidableEq, Repr

/-- The `comparison` object of a `compare_routes` result. -/
structure Comparison where
  routes : List CompareEntry
  recommendation : Recommendation
  summary : ComparisonSummary
  deriving DecidableEq, Repr

/-- The result object assembled by `handleCompareRoutes`. -/
structure CompareResult where
  success : Bool
  comparison : Comparison
  timestamp : String
  routesCompared : ℕ
  deriving DecidableEq, Repr

/-- The provider queries issued by `handleCompareRoutes`: the default
query (alternatives hard-coded to `true`) followed by one query per
comparison option. -/
def compareQueries (args : Args) : List CalcParams :=
  { origin := args.origin
    destination := args.destination
    waypoints := args.waypoints.getD []
    alternatives := true } ::
  (args.compareOptions.getD []).map (fun option =>
    { origin := args.origin
      destination := args.destination
      waypoints := args.waypoints.getD []
      options := option })

/-- Assemble the comparison object from the awaited routes `r :: rs`. -/
def mkCompareResult (env : Env) (opts : List RouteOptions)
    (r : NormalizedRoute) (rs : List NormalizedRoute) : CompareResult :=
  let routes := r :: rs
  { success := true
    comparison :=
      { routes := routes.enum.map (fun p =>
          { id := p.1
            summary := p.2.summary
            distance := p.2.distance
            duration := p.2.duration
            durationInTraffic := p.2.durationInTraffic
            tollInfo := p.2.tollInfo
            options :=
              if p.1 == 0 then OptLabel.defaultLabel
              else OptLabel.given (opts[p.1 - 1]?) })
        recommendation := findBestRoute r rs
        summary :=
          { fastestRoute := rs.foldl
              (fun fastest current =>
                if current.durationInTraffic < fastest.durationInTraffic then current
                else fastest) r
            shortestRoute := rs.foldl
              (fun shortest current =>
                if current.distance < shortest.distance then current else shortest) r } }
    timestamp := env.now
    routesCompared := routes.length }

/-- Message of the JS `TypeError` thrown by `Array.prototype.reduce` on
an empty array; unreachable here because the default query always
contributes one route. -/
def emptyReduceMessage : String := "Reduce of empty array with no initial value"

/-- `handleCompareRoutes` before JSON serialization: fan out all
queries, join all-or-nothing with `Promise.all`, then rank. -/
def handleCompareRoutesCore (env : Env) (args : Args) :
    Except String CompareResult :=
  match promiseAll ((compareQueries args).map (svcCalculateRoute env)) with
  | .error e => .error e
  | .ok [] => .error emptyReduceMessage
  | .ok (r :: rs) => .ok (mkCompareResult env (args.compareOptions.getD []) r rs)

/-- The result object assembled by `handleGetLiveTraffic`. -/
structure TrafficResult where
  success : Bool
  currentDuration : ℚ
  durationInTraffic : ℚ
  trafficDelay : ℚ
  trafficCondition : String
  alternativeTimes : List (String × ℚ)
  route : NormalizedRoute
  timestamp : String
  departureTime : String
  deriving DecidableEq, Repr

/-- `handleGetLiveTraffic` before JSON serialization. -/
def handleGetLiveTrafficCore (env : Env) (args : Args) :
    Except String TrafficResult :=
  let departureTime := args.departureTime.getD "now"
  (getTrafficInfo env args.origin args.destination departureTime).map (fun t =>
    { success := true
      currentDuration := t.duration
      durationInTraffic := t.durationInTraffic
      trafficDelay := t.durationInTraffic - t.duration
      trafficCondition := getTrafficCondition t.duration t.durationInTraffic
      alternativeTimes := t.alternativeTimes
      route := t.route
      timestamp := env.now
      departureTime := departureTime })

/-- The result object assembled by `handleEstimateCosts`. -/
structure EstimateResult where
  success : Bool
  costs : CostEstimate
  routeDistance : ℚ
  routeDuration : ℚ
  routeTollInfo : Option TollInfo
  timestamp : String
  currency : String
  deriving DecidableEq, Repr

/-- Assemble the `estimate_costs` result from the resolved route. -/
def mkEstimateResult (now : String) (cfg : CostsConfig) (routeData : NormalizedRoute)
    (vehicleOptions : VehicleOptions) : EstimateResult :=
  { success := true
    costs := calculateTripCosts cfg routeData vehicleOptions
    routeDistance := routeData.distance
    routeDuration := routeData.duration
    routeTollInfo := routeData.tollInfo
    timestamp := now
    currency := "USD" }

/-- `handleEstimateCosts` before JSON serialization: a supplied route is
used as-is; otherwise, with truthy origin and destination, one is
calculated; otherwise `'No route data available for cost estimation'`
is thrown. -/
def handleEstimateCostsCore (env : Env) (cfg : CostsConfig) (args : Args) :
    Except String EstimateResult :=
  let vehicleOptions := args.vehicleOptions.getD {}
  match args.route with
  | some routeData => .ok (mkEstimateResult env.now cfg routeData vehicleOptions)
  | none =>
    if jsTruthyStr args.origin && jsTruthyStr args.destination then
      match svcCalculateRoute env
          { origin := args.origin, destination := args.destination } with
      | .error e => .error e
      | .ok routeData => .ok (mkEstimateResult env.now cfg routeData vehicleOptions)
    else .error "No route data available for cost estimation"

/-- Stand-in for `JSON.stringify(result, null, 2)`; no claim depends on
the exact rendering. -/
def renderJson {α : Type} [Repr α] (a : α) : String := reprStr a

/-- The dispatcher's switch over the four tool names; an unrecognized
name throws `` `Unknown tool: ${name}` ``. -/
def dispatch (env : Env) (cfg : CostsConfig) (name : String) (args : Args) :
    Except String ToolResult :=
  if name == "calculate_route" then
    (handleCalculateRouteCore env args).map (fun r => mkTextResult (renderJson r))
  else if name == "compare_routes" then
    (handleCompareRoutesCore env args).map (fun r => mkTextResult (renderJson r))
  else if name == "get_live_traffic" then
    (handleGetLiveTrafficCore env args).map (fun r => mkTextResult (renderJson r))
  else if name == "estimate_costs" then
    (handleEstimateCostsCore env cfg args).map (fun r => mkTextResult (renderJson r))
  else .error ("Unknown tool: " ++ name)

/-- The `CallToolRequestSchema` handler: dispatch inside a try/catch
whose catch converts any thrown error into a structured error result. -/
def callTool (env : Env) (cfg : CostsConfig) (name : String) (args : Args) :
    ToolResult :=
  match dispatch env cfg name args with
  | .ok result => result
  | .error e => { content := [{ type := "text", text := "Error: " ++ e }], isError := true }

/- ## Concrete fixtures -/

/-- The documented configuration defaults: fuel 1.50 per liter,
efficiency 8.0 L/100km, toll estimate 0.05 per km. -/
def cfg1 : CostsConfig :=
  { fuelPricePerLiter := 3/2, vehicleFuelEfficiency := 8, tollEstimatePerKm := 1/20 }

/-- A provider leg of 100 km / 3600 s with no traffic estimate. -/
def rawCexLeg : RawLeg :=
  { distanceValue := 100000, durationValue := 3600
    durationInTrafficValue := none, steps := [] }

/-- A provider route with the single leg `rawCexLeg`. -/
def rawCexRoute : RawRoute :=
  { summary := "A to B", legs := [rawCexLeg], overviewPolyline := "abc"
    warnings := none, bounds := "", copyrights := "" }

/-- The normalized form of `rawCexRoute`: `tollInfo` is present with
`estimatedCost` absent, as `extractTollInfo` always produces. -/
def cexRoute : NormalizedRoute :=
  { summary := "A to B", distance := 100000, duration := 3600
    durationInTraffic := 3600, polyline := "abc", steps := [], warnings := []
    tollInfo := some { hasTolls := false, warnings := [], estimatedCost := none }
    bounds := "", copyrights := "" }

/-- The same trip as a caller-supplied route without any `tollInfo`. -/
def exampleRouteNoToll : NormalizedRoute :=
  { summary := "A to B", distance := 100000, duration := 3600
    durationInTraffic := 3600, polyline := "abc", steps := [], warnings := []
    tollInfo := none, bounds := "", copyrights := "" }

/-- Vehicle options of the spec's worked example: 8.0 L/100km, 1.50/L. -/
def cexVehicle : VehicleOptions := { fuelEfficiency := some 8, fuelPrice := some (3/2) }

/-- An environment whose provider always returns the one-route response. -/
def envC : Env := { directions := fun _ => .ok [rawCexRoute], now := "t0" }

/-- An environment whose provider always fails. -/
def envDown : Env := { directions := fun _ => .error "network down", now := "t0" }

/-- An environment whose provider always returns zero routes. -/
def envZeroRoutes : Env := { directions := fun _ => .ok [], now := "t0" }

/-- An environment whose provider always fails with the message
`"No route found"`. -/
def envNoRouteMsg : Env := { directions := fun _ => .error "No route found", now := "t0" }

/-- A query for a route from "A" to "B" with all defaults. -/
def pAB : CalcParams := { origin := some "A", destination := some "B" }

/-- Empty tool-call arguments. -/
def emptyArgs : Args := {}

/-- The default comparison query issued for empty arguments. -/
def q0 : CalcParams := { alternatives := true }

/-- Arguments supplying only a pre-computed route. -/
def argsWithRoute : Args := { route := some cexRoute }

/- ## Helper lemmas -/

/-- When `Promise.all` resolves, every joined promise resolved. -/
lemma promiseAll_ok_all {ε α : Type} {xs : List (Except ε α)} {vs : List α}
    (h : promiseAll xs = .ok vs) : ∀ x ∈ xs, exceptOk x = true := by
  induction xs generalizing vs with
  | nil => intro x hx; cases hx
  | cons y ys ih =>
    intro x hx
    cases y with
    | error e => simp [promiseAll] at h
    | ok v =>
      cases hys : promiseAll ys with
      | error e => simp [promiseAll, hys] at h
      | ok ws =>
        rcases List.mem_cons.mp hx with rfl | hmem
        · rfl
        · exact ih hys x hmem

/-- `Promise.all` preserves the number of joined promises. -/
lemma promiseAll_ok_length {ε α : Type} {xs : List (Except ε α)} {vs : List α}
    (h : promiseAll xs = .ok vs) : vs.length = xs.length := by
  induction xs generalizing vs with
  | nil => simp [promiseAll] at h; simp [← h]
  | cons y ys ih =>
    cases y with
    | error e => simp [promiseAll] at h
    | ok v =>
      cases hys : promiseAll ys with
      | error e => simp [promiseAll, hys] at h
      | ok ws =>
        simp [promiseAll, hys] at h
        simp [← h, ih hys]

/-- `x` is the first minimum of `l` under `f`: everything before it is
strictly larger, everything after it no smaller. -/
def isFirstMinOn {α : Type} (f : α → ℚ) (l : List α) (x : α) : Prop :=
  ∃ l₁ l₂, l = l₁ ++ x :: l₂ ∧ (∀ y ∈ l₁, f x < f y) ∧ (∀ y ∈ l₂, f x ≤ f y)

/-- A first minimum is a minimum. -/
lemma isFirstMinOn_le {α : Type} {f : α → ℚ} {l : List α} {x : α}
    (h : isFirstMinOn f l x) : ∀ y ∈ l, f x ≤ f y := by
  obtain ⟨l₁, l₂, rfl, h₁, h₂⟩ := h
  intro y hy
  rcases List.mem_append.mp hy with hy₁ | hy₂
  · exact le_of_lt (h₁ y hy₁)
  · rcases List.mem_cons.mp hy₂ with rfl | hy₂'
    · exact le_refl _
    · exact h₂ y hy₂'

/-- The JS `reduce` pattern `(best, cur) => f(cur) < f(best) ? cur : best`
over a non-empty list returns the first-encountered minimum. -/
lemma foldl_firstMin {α : Type} (f : α → ℚ) :
    ∀ (rs : List α) (r : α),
      isFirstMinOn f (r :: rs)
        (rs.foldl (fun best cur => if f cur < f best then cur else best) r) := by
  intro rs
  induction rs with
  | nil => exact fun r => ⟨[], [], rfl, by simp, by simp⟩
  | cons s ss ih =>
    intro r
    have hfold : ((s :: ss).foldl (fun best cur => if f cur < f best then cur else best) r)
        = ss.foldl (fun best cur => if f cur < f best then cur else best)
            (if f s < f r then s else r) := by
      simp [List.foldl]
    by_cases hc : f s < f r
    · rw [hfold, if_pos hc]
      obtain ⟨l₁, l₂, heq, h₁, h₂⟩ := ih s
      have hle : f (ss.foldl (fun best cur => if f cur < f best then cur else best) s) ≤ f s :=
        isFirstMinOn_le ⟨l₁, l₂, heq, h₁, h₂⟩ s (List.mem_cons_self _ _)
      refine ⟨r :: l₁, l₂, ?_, ?_, h₂⟩
      · rw [List.cons_append, ← heq]
      · intro y hy
        rcases List.mem_cons.mp hy with rfl | hy'
        · exact lt_of_le_of_lt hle hc
        · exact h₁ y hy'
    · rw [hfold, if_neg hc]
      obtain ⟨l₁, l₂, heq, h₁, h₂⟩ := ih r
      cases l₁ with
      | nil =>
        rw [List.nil_append] at heq
        injection heq with hm hl
        refine ⟨[], s :: l₂, ?_, by simp, ?_⟩
        · rw [List.nil_append, ← hm, ← hl]
        · intro y hy
          rcases List.mem_cons.mp hy with rfl | hy'
          · rw [← hm]; exact le_of_not_lt hc
          · exact h₂ y hy'
      | cons a as =>
        rw [List.cons_append] at heq
        injection heq with ha hss
        subst ha
        have hmr : f (ss.foldl (fun best cur => if f cur < f best then cur else best) r) < f r :=
          h₁ r (List.mem_cons_self _ _)
        refine ⟨r :: s :: as, l₂, ?_, ?_, h₂⟩
        · conv_lhs => rw [hss]
          simp
        · intro y hy
          rcases List.mem_cons.mp hy with rfl | hy'
          · exact hmr
          · rcases List.mem_cons.mp hy' with rfl | hy''
            · exact lt_of_lt_of_le hmr (le_of_not_lt hc)
            · exact h₁ y (List.mem_cons_of_mem _ hy'')

/-- A key/duration pair in the alternative-times result comes from a
succeeding sample at one of the fixed offsets. -/
lemma getAlternativeTimes_mem {env : Env} {o d : Option String} {k : String} {v : ℚ}
    (h : (k, v) ∈ getAlternativeTimes env o d) :
    ∃ offset ∈ timeOffsets, k = altKey offset ∧
      ∃ routes, env.directions (altQuery o d offset) = .ok routes ∧
        altDuration routes = some v := by
  simp only [getAlternativeTimes, List.mem_filterMap] at h
  obtain ⟨a, ha, hfa⟩ := h
  refine ⟨a, ha, ?_⟩
  rcases hdir : env.directions (altQuery o d a) with e | routes
  · simp [hdir] at hfa
  · simp only [hdir] at hfa
    rcases had : altDuration routes with _ | dv
    · rw [had] at hfa; simp at hfa
    · rw [had] at hfa
      simp at hfa
      obtain ⟨hk, hv⟩ := hfa
      exact ⟨hk.symm, routes, rfl, by rw [had, hv]⟩

/- ## Claim theorems -/

/-- C1 counterexample: a normalized route (as `formatRouteResponse`
produces it, with `tollInfo` present and `estimatedCost` absent) at
distance 100000 m, efficiency 8.0 L/100km, price 1.50/L and the 0.05
per-km toll rate yields `tollCost = 0` and `totalCost = 12`, not the
claimed `tollCost = 5` and `totalCost = 17`: the fallback branch keys
on the presence of the `tollInfo` object, not of `estimatedCost`. -/
theorem tripCosts_toll_claim_cex :
    formatRouteResponse rawCexRoute = some cexRoute ∧
    (calculateTripCosts cfg1 cexRoute cexVehicle).fuelCost = 12 ∧
    (calculateTripCosts cfg1 cexRoute cexVehicle).tollCost = 0 ∧
    (calculateTripCosts cfg1 cexRoute cexVehicle).tollCost ≠ 5 ∧
    (calculateTripCosts cfg1 cexRoute cexVehicle).totalCost = 12 ∧
    (calculateTripCosts cfg1 cexRoute cexVehicle).totalCost ≠ 17 := by
  refine ⟨rfl, ?_, ?_, ?_, ?_, ?_⟩ <;>
    norm_num [calculateTripCosts, cfg1, cexRoute, cexVehicle, jsOrNum, round2, jsRound]

/-- C1 amended: `fuelCost` is the rounded fuel formula; `tollCost` is
the rounded per-km fallback only when the `tollInfo` object is absent,
and otherwise the rounded `estimatedCost` with a missing cost read as 0;
`totalCost` rounds the sum of the raw amounts; on the worked example
with no `tollInfo` object at all the results are 12.00, 5.00, 17.00. -/
theorem tripCosts_amended_spec (cfg : CostsConfig) (route : NormalizedRoute)
    (vo : VehicleOptions) :
    (calculateTripCosts cfg route vo).fuelCost =
      round2 (route.distance / 1000 / 100 * jsOrNum vo.fuelEfficiency cfg.vehicleFuelEfficiency
        * jsOrNum vo.fuelPrice cfg.fuelPricePerLiter) ∧
    (route.tollInfo = none →
      (calculateTripCosts cfg route vo).tollCost =
        round2 (route.distance / 1000 * cfg.tollEstimatePerKm)) ∧
    (∀ ti, route.tollInfo = some ti →
      (calculateTripCosts cfg route vo).tollCost = round2 (ti.estimatedCost.getD 0)) ∧
    (calculateTripCosts cfg route vo).totalCost =
      round2 (route.distance / 1000 / 100 * jsOrNum vo.fuelEfficiency cfg.vehicleFuelEfficiency
        * jsOrNum vo.fuelPrice cfg.fuelPricePerLiter
        + match route.tollInfo with
          | some ti => ti.estimatedCost.getD 0
          | none => route.distance / 1000 * cfg.tollEstimatePerKm) ∧
    (calculateTripCosts cfg1 exampleRouteNoToll cexVehicle).fuelCost = 12 ∧
    (calculateTripCosts cfg1 exampleRouteNoToll cexVehicle).tollCost = 5 ∧
    (calculateTripCosts cfg1 exampleRouteNoToll cexVehicle).totalCost = 17 := by
  refine ⟨rfl, ?_, ?_, rfl, ?_, ?_, ?_⟩
  · intro h; simp [calculateTripCosts, h]
  · intro ti h; simp [calculateTripCosts, h]
  all_goals
    norm_num [calculateTripCosts, cfg1, exampleRouteNoToll, cexVehicle, jsOrNum,
      round2, jsRound]

/-- C1 witness: the amended toll formula evaluated on the worked
example with no `tollInfo` object. -/
theorem tripCosts_amended_instance :
    exampleRouteNoToll.tollInfo = none ∧
    (calculateTripCosts cfg1 exampleRouteNoToll cexVehicle).tollCost =
      round2 (exampleRouteNoToll.distance / 1000 * cfg1.tollEstimatePerKm) :=
  ⟨rfl, (tripCosts_amended_spec cfg1 exampleRouteNoToll cexVehicle).2.1 rfl⟩

/-- C4: for positive duration the classifier is the step function of the
delay ratio with strict thresholds 0.10 / 0.30 / 0.50, it is monotone in
the ratio, and the four sample ratios 0.05, 0.15, 0.35, 0.60 classify as
light, moderate, heavy, severe. -/
theorem trafficCondition_step_spec (d t : ℚ) (h : 0 < d) :
    (getTrafficCondition d t = "light" ↔ (t - d) / d < 1/10) ∧
    (getTrafficCondition d t = "moderate" ↔ 1/10 ≤ (t - d) / d ∧ (t - d) / d < 3/10) ∧
    (getTrafficCondition d t = "heavy" ↔ 3/10 ≤ (t - d) / d ∧ (t - d) / d < 1/2) ∧
    (getTrafficCondition d t = "severe" ↔ 1/2 ≤ (t - d) / d) ∧
    (∀ d' t', 0 < d' → (t - d) / d ≤ (t' - d') / d' →
      severityRank (getTrafficCondition d t) ≤ severityRank (getTrafficCondition d' t')) ∧
    getTrafficCondition 100 105 = "light" ∧
    getTrafficCondition 100 115 = "moderate" ∧
    getTrafficCondition 100 135 = "heavy" ∧
    getTrafficCondition 100 160 = "severe" := by
  refine ⟨?_, ?_, ?_, ?_, ?_, by norm_num [getTrafficCondition],
    by norm_num [getTrafficCondition], by norm_num [getTrafficCondition],
    by norm_num [getTrafficCondition]⟩
  · simp only [getTrafficCondition]
    split_ifs with h1 h2 h3 <;> constructor <;> intro hc <;>
      first
        | rfl
        | exact absurd hc (by decide)
        | linarith
        | (exfalso; linarith)
  · simp only [getTrafficCondition]
    split_ifs with h1 h2 h3 <;> constructor <;> intro hc <;>
      first
        | rfl
        | exact absurd hc (by decide)
        | exact ⟨by linarith, by linarith⟩
        | (exfalso; rcases hc with ⟨hc1, hc2⟩; linarith)
  · simp only [getTrafficCondition]
    split_ifs with h1 h2 h3 <;> constructor <;> intro hc <;>
      first
        | rfl
        | exact absurd hc (by decide)
        | exact ⟨by linarith, by linarith⟩
        | (exfalso; rcases hc with ⟨hc1, hc2⟩; linarith)
  · simp only [getTrafficCondition]
    split_ifs with h1 h2 h3 <;> constructor <;> intro hc <;>
      first
        | rfl
        | exact absurd hc (by decide)
        | linarith
        | (exfalso; linarith)
  · intro d' t' hd' hle
    simp only [getTrafficCondition]
    split_ifs <;> first | decide | (exfalso; linarith)

/-- C4 witness: the classifier applied at duration 100, traffic
duration 105 (ratio 0.05). -/
theorem trafficCondition_step_instance :
    (0 : ℚ) < 100 ∧ getTrafficCondition 100 105 = "light" :=
  ⟨by norm_num, ((trafficCondition_step_spec 100 105 (by norm_num)).1).mpr (by norm_num)⟩

/-- C8: a normalized route built from a provider response whose leg
durations are non-negative has `durationInTraffic ≥ 0`, and when the
provider supplies no traffic-adjusted duration it equals `duration`
exactly. -/
theorem formatRoute_traffic_invariant (route : RawRoute) (leg : RawLeg)
    (nr : NormalizedRoute) (hleg : route.legs.head? = some leg)
    (hfmt : formatRouteResponse route = some nr)
    (hd : 0 ≤ leg.durationValue)
    (ht : ∀ v, leg.durationInTrafficValue = some v → 0 ≤ v) :
    0 ≤ nr.durationInTraffic ∧
    (leg.durationInTrafficValue = none → nr.durationInTraffic = nr.duration) := by
  have hnr : nr = formatLeg route leg := by
    simp [formatRouteResponse, hleg] at hfmt
    exact hfmt.symm
  subst hnr
  constructor
  · cases hv : leg.durationInTrafficValue with
    | none => simpa [formatLeg, hv] using hd
    | some v => simpa [formatLeg, hv] using ht v hv
  · intro hnone
    simp [formatLeg, hnone]

/-- C8 witness: the invariant evaluated on the concrete provider
response `rawCexRoute`, whose leg has no traffic-adjusted duration. -/
theorem formatRoute_traffic_instance :
    (0 : ℚ) ≤ cexRoute.durationInTraffic ∧
    (rawCexLeg.durationInTrafficValue = none →
      cexRoute.durationInTraffic = cexRoute.duration) :=
  formatRoute_traffic_invariant rawCexRoute rawCexLeg cexRoute rfl rfl
    (by decide) (by intro v hv; simp [rawCexLeg] at hv)

/-- C3 counterexample: the zero-routes throw happens inside the same
try as the provider call, so it is re-wrapped by the catch: the error is
`"Google Maps API error: No route found"`, not the verbatim
`"No route found"`, and it is literally identical to the error produced
by a transport failure whose message is `"No route found"` — the two
error classes are not distinct. -/
theorem calculateRoute_error_class_cex :
    svcCalculateRoute envZeroRoutes pAB =
      .error "Google Maps API error: No route found" ∧
    svcCalculateRoute envZeroRoutes pAB ≠ .error "No route found" ∧
    svcCalculateRoute envZeroRoutes pAB = svcCalculateRoute envNoRouteMsg pAB := by
  refine ⟨rfl, ?_, rfl⟩
  intro h
  have := Except.error.inj h
  simp at this

/-- C3 amended: `calculateRoute` fails exactly when the provider
returns zero routes or the transport fails, but both failures are the
same wrapped generic error carrying the prefix
`"Google Maps API error: "` before the underlying message; with zero
routes the underlying message is `"No route found"`. -/
theorem calculateRoute_errors_amended_spec (env : Env) (p : CalcParams) :
    (env.directions (calcQuery p) = .ok [] →
      svcCalculateRoute env p = .error ("Google Maps API error: " ++ "No route found")) ∧
    (∀ e, env.directions (calcQuery p) = .error e →
      svcCalculateRoute env p = .error ("Google Maps API error: " ++ e)) ∧
    (∀ raw rest nr, env.directions (calcQuery p) = .ok (raw :: rest) →
      formatRouteResponse raw = some nr → svcCalculateRoute env p = .ok nr) := by
  refine ⟨?_, ?_, ?_⟩
  · intro h; simp [svcCalculateRoute, h]
  · intro e h; simp [svcCalculateRoute, h]
  · intro raw rest nr h hf; simp [svcCalculateRoute, h, hf]

/-- C3 witness: the amended zero-routes case evaluated on the concrete
environment that returns an empty route list. -/
theorem calculateRoute_errors_instance :
    envZeroRoutes.directions (calcQuery pAB) = .ok [] ∧
    svcCalculateRoute envZeroRoutes pAB =
      .error ("Google Maps API error: " ++ "No route found") :=
  ⟨rfl, (calculateRoute_errors_amended_spec envZeroRoutes pAB).1 rfl⟩

/-- C6: an unrecognized tool name produces the error-flagged result
whose text `"Error: Unknown tool: <name>"` contains the literal name;
any handler error `e` is converted at the dispatcher boundary into the
structured result `{content, isError := true}`; and a successful
dispatch is returned as-is — `callTool` is a total function into
results, never a propagated exception. -/
theorem callTool_boundary_spec (env : Env) (cfg : CostsConfig) (name : String)
    (args : Args) :
    (name ≠ "calculate_route" → name ≠ "compare_routes" → name ≠ "get_live_traffic" →
      name ≠ "estimate_costs" →
      callTool env cfg name args =
        { content := [{ type := "text", text := "Error: Unknown tool: " ++ name }]
          isError := true } ∧
      ∃ pre suf, "Error: Unknown tool: " ++ name = pre ++ name ++ suf) ∧
    (∀ e, dispatch env cfg name args = .error e →
      callTool env cfg name args =
        { content := [{ type := "text", text := "Error: " ++ e }], isError := true }) ∧
    (∀ res, dispatch env cfg name args = .ok res → callTool env cfg name args = res) := by
  refine ⟨?_, ?_, ?_⟩
  · intro h1 h2 h3 h4
    have hd : dispatch env cfg name args = .error ("Unknown tool: " ++ name) := by
      simp only [dispatch, beq_iff_eq]
      rw [if_neg h1, if_neg h2, if_neg h3, if_neg h4]
    refine ⟨by simp [callTool, hd, ← String.append_assoc], "Error: Unknown tool: ", "", ?_⟩
    exact (String.append_empty _).symm
  · intro e he; simp [callTool, he]
  · intro res hres; simp [callTool, hres]

/-- C6 witness: the dispatcher applied to the unrecognized name
`"made_up_tool"`. -/
theorem callTool_boundary_instance :
    ("made_up_tool" : String) ≠ "calculate_route" ∧
    callTool envDown cfg1 "made_up_tool" emptyArgs =
      { content := [{ type := "text", text := "Error: Unknown tool: made_up_tool" }]
        isError := true } :=
  ⟨by decide, by
    have h := (callTool_boundary_spec envDown cfg1 "made_up_tool" emptyArgs).1
      (by decide) (by decide) (by decide) (by decide)
    exact h.1.trans (by decide)⟩

/-- C7: with neither a route object nor a truthy origin/destination
pair, `estimate_costs` throws `'No route data available for cost
estimation'`, which the dispatcher boundary converts into an
error-flagged structured result rather than an uncaught fault. -/
theorem estimateCosts_insufficient_spec (env : Env) (cfg : CostsConfig) (args : Args)
    (hroute : args.route = none)
    (hpair : ¬(jsTruthyStr args.origin = true ∧ jsTruthyStr args.destination = true)) :
    handleEstimateCostsCore env cfg args =
      .error "No route data available for cost estimation" ∧
    callTool env cfg "estimate_costs" args =
      { content :=
          [{ type := "text",
             text := "Error: No route data available for cost estimation" }]
        isError := true } := by
  have hand : (jsTruthyStr args.origin && jsTruthyStr args.destination) = false := by
    cases ho : jsTruthyStr args.origin <;> cases hd : jsTruthyStr args.destination <;>
      simp_all
  have hcore : handleEstimateCostsCore env cfg args =
      .error "No route data available for cost estimation" := by
    simp [handleEstimateCostsCore, hroute, hand]
  have hdisp : dispatch env cfg "estimate_costs" args =
      (handleEstimateCostsCore env cfg args).map (fun r => mkTextResult (renderJson r)) :=
    rfl
  refine ⟨hcore, ?_⟩
  rw [callTool, hdisp, hcore]
  rfl

/-- C7 witness: empty arguments (no route, no origin, no destination). -/
theorem estimateCosts_insufficient_instance :
    emptyArgs.route = none ∧
    callTool envDown cfg1 "estimate_costs" emptyArgs =
      { content :=
          [{ type := "text",
             text := "Error: No route data available for cost estimation" }]
        isError := true } :=
  ⟨rfl, (estimateCosts_insufficient_spec envDown cfg1 emptyArgs rfl (by decide)).2⟩

/-- C9: the query list of `compare_routes` and the handler's whole
result are unchanged under any value of the caller-supplied
`alternatives` argument, and the first (default) query always has
alternatives enabled. -/
theorem compareRoutes_alternatives_independent (env : Env) (args : Args)
    (a₁ a₂ : Option Bool) :
    compareQueries { args with alternatives := a₁ } =
      compareQueries { args with alternatives := a₂ } ∧
    (compareQueries args).head?.map (fun p => p.alternatives) = some true ∧
    handleCompareRoutesCore env { args with alternatives := a₁ } =
      handleCompareRoutesCore env { args with alternatives := a₂ } :=
  ⟨rfl, rfl, rfl⟩

/-- C10: a supplied route object takes precedence: the result is built
solely from it, and the handler's outcome does not depend on the
provider oracle at all (no route-calculation call is issued). -/
theorem estimateCosts_route_precedence (env env' : Env) (cfg : CostsConfig)
    (args : Args) (r : NormalizedRoute) (h : args.route = some r)
    (hnow : env.now = env'.now) :
    handleEstimateCostsCore env cfg args =
      .ok (mkEstimateResult env.now cfg r (args.vehicleOptions.getD {})) ∧
    handleEstimateCostsCore env cfg args = handleEstimateCostsCore env' cfg args := by
  constructor
  · simp [handleEstimateCostsCore, h]
  · simp [handleEstimateCostsCore, h, hnow]

/-- C10 witness: a supplied route evaluated against a working provider
and a failing provider gives the same successful estimate. -/
theorem estimateCosts_precedence_instance :
    argsWithRoute.route = some cexRoute ∧
    handleEstimateCostsCore envC cfg1 argsWithRoute =
      .ok (mkEstimateResult envC.now cfg1 cexRoute (argsWithRoute.vehicleOptions.getD {})) ∧
    handleEstimateCostsCore envC cfg1 argsWithRoute =
      handleEstimateCostsCore envDown cfg1 argsWithRoute :=
  ⟨rfl, (estimateCosts_route_precedence envC envDown cfg1 argsWithRoute cexRoute rfl rfl).1,
    (estimateCosts_route_precedence envC envDown cfg1 argsWithRoute cexRoute rfl rfl).2⟩

/-- C2: whether `getTrafficInfo` succeeds is a function of the primary
query's response alone (so supplementary failures can never fail the
call); a failing primary query fails the call with the wrapped message;
a failing supplementary sample is omitted from the alternative times
while a succeeding one is kept; and `compare_routes` fails as a whole
as soon as any one of its concurrent queries fails. -/
theorem failure_asymmetry_spec :
    (∀ env₁ env₂ o d t,
      env₁.directions (trafficQuery o d t) = env₂.directions (trafficQuery o d t) →
      exceptOk (getTrafficInfo env₁ o d t) = exceptOk (getTrafficInfo env₂ o d t)) ∧
    (∀ env o d t e, env.directions (trafficQuery o d t) = .error e →
      getTrafficInfo env o d t = .error ("Traffic info error: " ++ e)) ∧
    (∀ env o d offset e, offset ∈ timeOffsets →
      env.directions (altQuery o d offset) = .error e →
      ∀ v : ℚ, (altKey offset, v) ∉ getAlternativeTimes env o d) ∧
    (∀ env o d offset routes v, offset ∈ timeOffsets →
      env.directions (altQuery o d offset) = .ok routes →
      altDuration routes = some v →
      (altKey offset, v) ∈ getAlternativeTimes env o d) ∧
    (∀ env args p, p ∈ compareQueries args →
      exceptOk (svcCalculateRoute env p) = false →
      exceptOk (handleCompareRoutesCore env args) = false) := by
  refine ⟨?_, ?_, ?_, ?_, ?_⟩
  · intro env₁ env₂ o d t h
    rcases hq : env₂.directions (trafficQuery o d t) with e | routes
    · simp [getTrafficInfo, h, hq, exceptOk]
    · rcases hr : routes.head? with _ | route
      · simp [getTrafficInfo, h, hq, hr, exceptOk]
      · rcases hl : route.legs.head? with _ | leg
        · simp [getTrafficInfo, h, hq, hr, hl, exceptOk]
        · simp [getTrafficInfo, h, hq, hr, hl, exceptOk]
  · intro env o d t e h
    simp [getTrafficInfo, h]
  · intro env o d offset e hoff henv v hmem
    obtain ⟨off', hmem', hk, routes, hdir', -⟩ := getAlternativeTimes_mem hmem
    have hoo : offset = off' := by
      simp only [timeOffsets, List.mem_cons, List.not_mem_nil, or_false] at hoff hmem'
      rcases hoff with rfl | rfl | rfl <;> rcases hmem' with rfl | rfl | rfl <;>
        first
          | rfl
          | exact absurd hk (by decide)
    rw [← hoo] at hdir'
    rw [henv] at hdir'
    cases hdir'
  · intro env o d offset routes v hoff hdir had
    simp only [getAlternativeTimes, List.mem_filterMap]
    refine ⟨offset, hoff, ?_⟩
    simp only [hdir]
    rw [had]
  · intro env args p hp hfail
    rcases hall : promiseAll ((compareQueries args).map (svcCalculateRoute env)) with e | vs
    · simp [handleCompareRoutesCore, hall, exceptOk]
    · have := promiseAll_ok_all hall (svcCalculateRoute env p)
        (List.mem_map_of_mem (svcCalculateRoute env) hp)
      rw [hfail] at this
      cases this

/-- C2 witness: with every provider query failing, the default
comparison query is in the issued set, it fails, and the whole
`compare_routes` call fails. -/
theorem failure_asymmetry_instance :
    q0 ∈ compareQueries emptyArgs ∧
    exceptOk (handleCompareRoutesCore envDown emptyArgs) = false :=
  ⟨by decide,
    failure_asymmetry_spec.2.2.2.2 envDown emptyArgs q0 (by decide) (by decide)⟩

/-- C5: a successful `compare_routes` result has exactly N+1 entries
with the distinct ids 0..N, entry 0 labeled `default` and entry i
labeled with `compareOptions[i-1]`; the fastest and shortest routes are
the first-encountered minima of `durationInTraffic` and `distance` over
the underlying routes, and the recommendation is always the fastest
route with the fixed rationale string. -/
theorem compareRoutes_ranking_spec (env : Env) (args : Args) (res : CompareResult)
    (h : handleCompareRoutesCore env args = .ok res) :
    res.comparison.routes.map (fun e => e.id) =
      List.range ((args.compareOptions.getD []).length + 1) ∧
    res.comparison.routes.length = (args.compareOptions.getD []).length + 1 ∧
    (∀ i e, res.comparison.routes[i]? = some e →
      e.options = if i = 0 then OptLabel.defaultLabel
        else OptLabel.given ((args.compareOptions.getD [])[i - 1]?)) ∧
    (∃ nrs : List NormalizedRoute,
      nrs.length = (args.compareOptions.getD []).length + 1 ∧
      res.comparison.routes.map
          (fun e => (e.summary, e.distance, e.duration, e.durationInTraffic, e.tollInfo)) =
        nrs.map (fun n => (n.summary, n.distance, n.duration, n.durationInTraffic, n.tollInfo)) ∧
      isFirstMinOn (fun n => n.durationInTraffic) nrs res.comparison.summary.fastestRoute ∧
      isFirstMinOn (fun n => n.distance) nrs res.comparison.summary.shortestRoute) ∧
    res.comparison.recommendation.recommended = res.comparison.summary.fastestRoute ∧
    res.comparison.recommendation.reason =
      "Fastest travel time with current traffic conditions" := by
  rcases hall : promiseAll ((compareQueries args).map (svcCalculateRoute env)) with e | vs
  · simp [handleCompareRoutesCore, hall] at h
  · have hlen : vs.length = (args.compareOptions.getD []).length + 1 := by
      have hl := promiseAll_ok_length hall
      simpa [compareQueries] using hl
    cases vs with
    | nil => simp at hlen
    | cons r rs =>
      simp only [handleCompareRoutesCore, hall, Except.ok.injEq] at h
      subst h
      have hrs : rs.length = (args.compareOptions.getD []).length := by
        simp only [List.length_cons] at hlen
        omega
      refine ⟨?_, ?_, ?_, ?_, rfl, rfl⟩
      · simp only [mkCompareResult, List.map_map]
        show (r :: rs).enum.map Prod.fst =
          List.range ((args.compareOptions.getD []).length + 1)
        rw [List.enum_map_fst, List.length_cons, hrs]
      · simp [mkCompareResult, List.enum_length, hrs]
      · intro i e he
        simp only [mkCompareResult] at he
        rw [List.getElem?_map, List.getElem?_enum] at he
        rcases hri : (r :: rs)[i]? with _ | x
        · rw [hri] at he; simp at he
        · rw [hri] at he
          simp only [Option.map_some', Option.some.injEq] at he
          subst he
          cases i with
          | zero => simp
          | succ n => simp
      · refine ⟨r :: rs, by simp [hrs], ?_, ?_, ?_⟩
        · simp only [mkCompareResult, List.map_map]
          show (r :: rs).enum.map
              ((fun n : NormalizedRoute =>
                (n.summary, n.distance, n.duration, n.durationInTraffic, n.tollInfo)) ∘
                Prod.snd) =
            (r :: rs).map (fun n =>
              (n.summary, n.distance, n.duration, n.durationInTraffic, n.tollInfo))
          rw [← List.map_map, List.enum_map_snd]
        · exact foldl_firstMin (fun n => n.durationInTraffic) rs r
        · exact foldl_firstMin (fun n => n.distance) rs r

/-- C5 witness: a concrete comparison with no extra options against the
one-route environment. -/
theorem compareRoutes_ranking_instance :
    handleCompareRoutesCore envC emptyArgs = .ok (mkCompareResult envC [] cexRoute []) ∧
    (mkCompareResult envC [] cexRoute []).comparison.routes.map (fun e => e.id) =
      List.range ((emptyArgs.compareOptions.getD []).length + 1) :=
  ⟨rfl,
    (compareRoutes_ranking_spec envC emptyArgs (mkCompareResult envC [] cexRoute []) rfl).1⟩

end GoogleMapsMcp
